import Mathlib

/-!
# DTMF receiver (MT88L70) driver: `dtmf_rx.c`

A shallow embedding of the driver's shared state, its sysfs `show`/`store`
callbacks and its interrupt handler, followed by theorems about them.

Conventions of the embedding:

* the file-scope `static` variables of `dtmf_rx.c` are the fields of `State`;
  the GPIO controller (output latch and debounce interval per line) and the
  memory reachable through `int *` pointers are fields of `State` as well;
* a C `int` is an `Int` kept in `[-2^31, 2^31)` by `wrapInt`, an `unsigned int`
  is a `Nat` kept below `2^32`;
* text buffers are `String`s; `sprintf` returns the text it writes;
* what the hardware and the clock deliver (pin levels, the time of day) is an
  explicit argument of the function that reads it.
-/

namespace DtmfRx

/-! ## Machine integers -/

/-- The macro `DEBOUNCE_TIME` (line 19): the default bounce time, 20 ms. -/
def DEBOUNCE_TIME : Nat := 20

/-- Largest value of a C `int` (32 bits). -/
def INT_MAX : Int := 2147483647

/-- Smallest value of a C `int` (32 bits). -/
def INT_MIN : Int := -2147483648

/-- Conversion of a mathematical integer to a 32-bit `int` (two's complement wrap-around). -/
def wrapInt (x : Int) : Int := (x + 2147483648) % 4294967296 - 2147483648

/-- Conversion of an `int` to `unsigned int`: reduction modulo `2^32`. -/
def toUInt (x : Int) : Nat := (x % 4294967296).toNat

/-- Conversion of an `unsigned int` to `bool`: any non-zero value is `true`. -/
def toBool (x : Nat) : Bool := x != 0

/-- A `bool` promoted to `int`, as when it is passed to `sprintf` or `gpio_set_value`. -/
def ofBool (b : Bool) : Nat := if b then 1 else 0

/-- Left shift on `unsigned int`. -/
def shl32 (x k : Nat) : Nat := (x <<< k) % 4294967296

/-! ## Time -/

/-- The kernel's `struct timespec`. -/
structure timespec where
  tv_sec : Int
  tv_nsec : Int
deriving DecidableEq, Repr

/-- Nanoseconds per second. -/
def NSEC_PER_SEC : Int := 1000000000

/-- The kernel's `set_normalized_timespec`: its two loops move whole seconds out of
`nsec` until `0 <= nsec < NSEC_PER_SEC`, which is division with a non-negative
remainder (`/` and `%` on `Int`) by `NSEC_PER_SEC`. -/
def set_normalized_timespec (sec nsec : Int) : timespec :=
  { tv_sec := sec + nsec / NSEC_PER_SEC, tv_nsec := nsec % NSEC_PER_SEC }

/-- The kernel's `timespec_sub`. -/
def timespec_sub (lhs rhs : timespec) : timespec :=
  set_normalized_timespec (lhs.tv_sec - rhs.tv_sec) (lhs.tv_nsec - rhs.tv_nsec)

/-- A `timespec` as a number of nanoseconds. -/
def timespec.toNs (t : timespec) : Int := t.tv_sec * NSEC_PER_SEC + t.tv_nsec

/-! ## GPIO lines -/

/-- What the GPIO controller holds for one line. -/
structure GpioLine where
  value : Nat
  debounce : Nat
  output : Bool
  requested : Bool
  exported : Bool
deriving DecidableEq, Repr

/-- The GPIO controller: one `GpioLine` per GPIO number. -/
abbrev Gpios := Nat → GpioLine

/-- Replace the record of line `g`. -/
def Gpios.set (hw : Gpios) (g : Nat) (l : GpioLine) : Gpios :=
  fun k => if k = g then l else hw k

/-- Kernel `gpio_request`. -/
def gpio_request (hw : Gpios) (g : Nat) : Gpios :=
  hw.set g { hw g with requested := true }

/-- Kernel `gpio_direction_output`: output mode with an initial value. -/
def gpio_direction_output (hw : Gpios) (g : Nat) (v : Nat) : Gpios :=
  hw.set g { hw g with output := true, value := v }

/-- Kernel `gpio_direction_input`. -/
def gpio_direction_input (hw : Gpios) (g : Nat) : Gpios :=
  hw.set g { hw g with output := false }

/-- Kernel `gpio_set_debounce`: the debounce interval of line `g`. -/
def gpio_set_debounce (hw : Gpios) (g : Nat) (d : Nat) : Gpios :=
  hw.set g { hw g with debounce := d }

/-- Kernel `gpio_export`. -/
def gpio_export (hw : Gpios) (g : Nat) : Gpios :=
  hw.set g { hw g with exported := true }

/-- Kernel `gpio_set_value`: drive line `g` to level `v`. -/
def gpio_set_value (hw : Gpios) (g : Nat) (v : Nat) : Gpios :=
  hw.set g { hw g with value := v }

/-- Kernel `gpio_get_value`: the level sampled on pin `g`, 0 or 1. -/
def gpio_get_value (pins : Nat → Bool) (g : Nat) : Nat := ofBool (pins g)

/-! ## Module parameters and shared state -/

/-- The module parameters (lines 24-48), fixed when the module is loaded. -/
structure Config where
  isRising : Bool
  gpioDTMFdetected : Nat
  gpioDTMFdata1 : Nat
  gpioDTMFdata2 : Nat
  gpioDTMFdata3 : Nat
  gpioDTMFdata4 : Nat
  gpioDTMFpd : Nat
  gpioLED : Nat
deriving DecidableEq, Repr

/-- The default values of the module parameters. -/
def Config.default : Config :=
  { isRising := true, gpioDTMFdetected := 73, gpioDTMFdata1 := 86, gpioDTMFdata2 := 75,
    gpioDTMFdata3 := 76, gpioDTMFdata4 := 77, gpioDTMFpd := 87, gpioLED := 51 }

/-- The file-scope variables of `dtmf_rx.c` (lines 50-63), the GPIO controller and the
memory that `int *` pointers address. `digit` is the pointer `static int *digit`,
held as an address; address 0 is `NULL`. -/
structure State where
  gpioName : String
  irqNumber : Int
  numberPresses : Int
  DTMFdetected : Bool
  DTMFdata1 : Nat
  DTMFdata2 : Nat
  DTMFdata3 : Nat
  DTMFdata4 : Nat
  DTMFdigit : Nat
  digit : Nat
  isDebounce : Bool
  isDTMFpd : Bool
  ledOn : Bool
  ts_last : timespec
  ts_current : timespec
  ts_diff : timespec
  gpio : Gpios
  mem : Nat → Int

/-- The state when the module is loaded: every variable has its initialiser
(lines 50-63); `hw` and `mem` are the GPIO controller and memory found at load time. -/
def State.statics (hw : Gpios) (mem : Nat → Int) : State :=
  { gpioName := "gpioXXX", irqNumber := 0, numberPresses := 0, DTMFdetected := false,
    DTMFdata1 := 0, DTMFdata2 := 0, DTMFdata3 := 0, DTMFdata4 := 0, DTMFdigit := 0,
    digit := 0, isDebounce := true, isDTMFpd := false, ledOn := false,
    ts_last := ⟨0, 0⟩, ts_current := ⟨0, 0⟩, ts_diff := ⟨0, 0⟩, gpio := hw, mem := mem }

/-! ## Text conversions of `sprintf` and `sscanf` -/

/-- The digit loop of the kernel's number conversion: the decimal digits of `n`,
least significant first; `fuel` bounds the number of iterations. -/
def put_dec : Nat → Nat → List Char
  | 0, _ => []
  | fuel + 1, n =>
    Nat.digitChar (n % 10) :: (if n / 10 = 0 then [] else put_dec fuel (n / 10))

/-- Conversion `%.<precision>lu` / `%lu` (precision 0): the decimal digits of `n`, most
significant first, preceded by zeros up to `precision` digits. -/
def number (precision : Nat) (n : Nat) : List Char :=
  let tmp := put_dec (n + 1) n
  List.replicate (precision - tmp.length) '0' ++ tmp.reverse

/-- Conversion `%d` of an `int`. -/
def number_d (x : Int) : List Char :=
  if x < 0 then '-' :: number 0 (-x).toNat else number 0 x.toNat

/-- Kernel `isspace` on the ASCII range. -/
def isspace (c : Char) : Bool :=
  c = ' ' || c = '\t' || c = '\n' || c = '\x0b' || c = '\x0c' || c = '\r'

/-- Kernel `skip_spaces`. -/
def skip_spaces : List Char → List Char
  | [] => []
  | c :: cs => if isspace c then skip_spaces cs else c :: cs

/-- Kernel `simple_strtoull` in base 10: accumulate decimal digits while there are any. -/
def simple_strtoull : List Char → Nat → Nat
  | [], acc => acc
  | c :: cs, acc => if c.isDigit then simple_strtoull cs (acc * 10 + (c.toNat - 48)) else acc

/-- The conversion `%d` of `sscanf(buf, "%du", &x)`: white space is skipped, an optional
`-` and at least one decimal digit are required; the value read is converted to `int`.
`none` when no conversion happens, in which case `x` is not written. The literal `u`
of the format only matters for the return value of `sscanf`, which the driver drops. -/
def sscanf_d (buf : List Char) : Option Int :=
  match skip_spaces buf with
  | [] => none
  | '-' :: rest =>
    match rest with
    | [] => none
    | d :: _ => if d.isDigit then some (wrapInt (-(simple_strtoull rest 0 : Int))) else none
  | d :: rest =>
    if d.isDigit then some (wrapInt (simple_strtoull (d :: rest) 0 : Int)) else none

/-! ## The sysfs callbacks (lines 74-165) -/

/-- The text `sprintf(buf, "%d\n", x)` writes. -/
def sprintf_d_nl (x : Int) : String := String.mk (number_d x ++ ['\n'])

/-- Source `numberPresses_show` (lines 74-76). -/
def numberPresses_show (s : State) : String := sprintf_d_nl s.numberPresses

/-- Source `numberPresses_store` (lines 85-89): `sscanf` writes `numberPresses` when it
converts a number; the callback returns `count` in every case. -/
def numberPresses_store (s : State) (buf : String) (count : Nat) : State × Nat :=
  let s1 := match sscanf_d buf.data with
    | some v => { s with numberPresses := v }
    | none => s
  (s1, count)

/-- Source `ledOn_show` (lines 92-94). -/
def ledOn_show (s : State) : String := sprintf_d_nl (ofBool s.ledOn)

/-- Source `DTMFdetected_show` (lines 97-99). -/
def DTMFdetected_show (s : State) : String := sprintf_d_nl (ofBool s.DTMFdetected)

/-- Source `DTMFdata1_show` (lines 102-104): `%d` of an `unsigned int`. -/
def DTMFdata1_show (s : State) : String := sprintf_d_nl (wrapInt s.DTMFdata1)

/-- Source `DTMFdata2_show` (lines 106-108). -/
def DTMFdata2_show (s : State) : String := sprintf_d_nl (wrapInt s.DTMFdata2)

/-- Source `DTMFdata3_show` (lines 110-112). -/
def DTMFdata3_show (s : State) : String := sprintf_d_nl (wrapInt s.DTMFdata3)

/-- Source `DTMFdata4_show` (lines 114-116). -/
def DTMFdata4_show (s : State) : String := sprintf_d_nl (wrapInt s.DTMFdata4)

/-- Source `isDTMFpd_show` (lines 119-121). -/
def isDTMFpd_show (s : State) : String := sprintf_d_nl (ofBool s.isDTMFpd)

/-- Source `isDTMFpd_store` (lines 123-135). The local `temp` is declared without an
initialiser: `temp0` is the value it happens to hold, which is what is used when
`sscanf` converts nothing. -/
def isDTMFpd_store (cfg : Config) (s : State) (buf : String) (count : Nat) (temp0 : Nat) :
    State × Nat :=
  let temp : Nat := match sscanf_d buf.data with
    | some v => toUInt v
    | none => temp0
  let s1 := { s with gpio := gpio_set_value s.gpio cfg.gpioDTMFpd 0 }
  let s2 := { s1 with isDTMFpd := toBool temp }
  let s3 :=
    if s2.isDTMFpd then
      { s2 with gpio := gpio_set_value s2.gpio cfg.gpioDTMFpd (ofBool s2.isDTMFpd) }
    else
      { s2 with gpio := gpio_set_debounce s2.gpio cfg.gpioDTMFpd 0 }
  (s3, count)

/-- Conversion of a `long` to `unsigned long` (32 bits on the target), as `%lu` reads it. -/
def toULong (x : Int) : Nat := (x % 4294967296).toNat

/-- Source `lastTime_show` (lines 138-141):
`sprintf(buf, "%.2lu:%.2lu:%.2lu:%.9lu \n", ...)` with C's truncating `/` and `%`. -/
def lastTime_show (s : State) : String :=
  String.mk (
    number 2 (toULong (Int.tmod (Int.tdiv s.ts_last.tv_sec 3600) 24)) ++ [':'] ++
    number 2 (toULong (Int.tmod (Int.tdiv s.ts_last.tv_sec 60) 60)) ++ [':'] ++
    number 2 (toULong (Int.tmod s.ts_last.tv_sec 60)) ++ [':'] ++
    number 9 (toULong s.ts_last.tv_nsec) ++ [' ', '\n'])

/-- Source `diffTime_show` (lines 144-146): `sprintf(buf, "%lu.%.9lu\n", ...)`. -/
def diffTime_show (s : State) : String :=
  String.mk (number 0 (toULong s.ts_diff.tv_sec) ++ ['.'] ++
    number 9 (toULong s.ts_diff.tv_nsec) ++ ['\n'])

/-- Source `isDebounce_show` (lines 149-151). -/
def isDebounce_show (s : State) : String := sprintf_d_nl (ofBool s.isDebounce)

/-- Source `isDebounce_store` (lines 153-165). As in `isDTMFpd_store`, `temp0` is the
value the uninitialised local `temp` holds when `sscanf` converts nothing. -/
def isDebounce_store (cfg : Config) (s : State) (buf : String) (count : Nat) (temp0 : Nat) :
    State × Nat :=
  let temp : Nat := match sscanf_d buf.data with
    | some v => toUInt v
    | none => temp0
  let s1 := { s with gpio := gpio_set_debounce s.gpio cfg.gpioDTMFdetected 0 }
  let s2 := { s1 with isDebounce := toBool temp }
  let s3 :=
    if s2.isDebounce then
      { s2 with gpio := gpio_set_debounce s2.gpio cfg.gpioDTMFdetected DEBOUNCE_TIME }
    else
      { s2 with gpio := gpio_set_debounce s2.gpio cfg.gpioDTMFdetected 0 }
  (s3, count)

/-! ## Module initialisation (lines 225-287) -/

/-- What the kernel answers to `dtmfrx_init`: whether `kobject_create_and_add` gave a
kobject, the results of `sysfs_create_group`, `gpio_to_irq` and `request_irq`, and the
time of day. -/
structure InitEnv where
  kobj_ok : Bool
  sysfs_result : Int
  irq : Int
  request_irq_result : Int
  now : timespec

/-- The error number `ENOMEM`. -/
def ENOMEM : Int := 12

/-- Source `dtmfrx_init` (lines 225-287): the state it leaves and the value it returns. -/
def dtmfrx_init (cfg : Config) (s : State) (env : InitEnv) : State × Int :=
  let s := { s with gpioName := String.mk ("gpio".data ++ number_d (wrapInt cfg.gpioDTMFdetected)) }
  if !env.kobj_ok then (s, -ENOMEM)
  else if env.sysfs_result ≠ 0 then (s, env.sysfs_result)
  else
    let s := { s with ts_last := env.now }
    let s := { s with ts_diff := timespec_sub s.ts_last s.ts_last }
    let s := { s with ledOn := false }
    let hw := s.gpio
    let hw := gpio_request hw cfg.gpioLED
    let hw := gpio_direction_output hw cfg.gpioLED (ofBool s.ledOn)
    let hw := gpio_export hw cfg.gpioLED
    let hw := gpio_request hw cfg.gpioDTMFdetected
    let hw := gpio_direction_input hw cfg.gpioDTMFdetected
    let hw := gpio_set_debounce hw cfg.gpioDTMFdetected DEBOUNCE_TIME
    let hw := gpio_export hw cfg.gpioDTMFdetected
    let hw := gpio_request hw cfg.gpioDTMFdata1
    let hw := gpio_direction_input hw cfg.gpioDTMFdata1
    let hw := gpio_set_debounce hw cfg.gpioDTMFdata1 DEBOUNCE_TIME
    let hw := gpio_export hw cfg.gpioDTMFdata1
    let hw := gpio_request hw cfg.gpioDTMFdata2
    let hw := gpio_direction_input hw cfg.gpioDTMFdata2
    let hw := gpio_set_debounce hw cfg.gpioDTMFdata2 DEBOUNCE_TIME
    let hw := gpio_export hw cfg.gpioDTMFdata2
    let s := { s with gpio := hw }
    let s := { s with irqNumber := env.irq }
    (s, env.request_irq_result)

/-! ## The interrupt handler (lines 316-383) -/

/-- The kernel's `irqreturn_t` values the handler's documentation names. -/
inductive IrqReturn where
  | IRQ_NONE
  | IRQ_HANDLED
deriving DecidableEq, Repr

/-- How one invocation of the handler ends: it returns a status, or it stops at a
store through an invalid pointer. -/
inductive Outcome where
  | returned (r : IrqReturn)
  | fault
deriving DecidableEq, Repr

/-- What the hardware and the clock deliver to one invocation of the handler: the
level on every pin and the time of day. -/
structure IrqEnv where
  pins : Nat → Bool
  now : timespec

/-- The `switch (DTMFdigit)` of the handler (lines 329-380): the value it assigns
through `digit` for each composed code. -/
def decode_switch (c : Nat) : Int :=
  match c with
  | 1 => 1
  | 2 => 2
  | 3 => 3
  | 4 => 4
  | 5 => 5
  | 6 => 6
  | 7 => 7
  | 8 => 8
  | 9 => 9
  | 10 => 10
  | 11 => 11
  | 12 => 12
  | 13 => 13
  | 14 => 14
  | 15 => 15
  | 16 => 16
  | _ => 99

/-- The store `*p = v` through an `int *`: there is no object at `NULL` (address 0),
so the store faults there (`none`); elsewhere it writes the addressed cell. -/
def store_int (mem : Nat → Int) (p : Nat) (v : Int) : Option (Nat → Int) :=
  if p = 0 then none else some (fun a => if a = p then v else mem a)

/-- Lines 317-328 of `dtmfrx_irq_handler`: the assignments to the shared variables
that precede the `switch`. -/
def irq_update (cfg : Config) (s : State) (env : IrqEnv) : State :=
  let s := { s with DTMFdata1 := gpio_get_value env.pins cfg.gpioDTMFdata1 }
  let s := { s with DTMFdata2 := gpio_get_value env.pins cfg.gpioDTMFdata2 }
  let s := { s with DTMFdata3 := gpio_get_value env.pins cfg.gpioDTMFdata3 }
  let s := { s with DTMFdata4 := gpio_get_value env.pins cfg.gpioDTMFdata4 }
  let d := shl32 s.DTMFdata1 1 &&& shl32 s.DTMFdata1 1 &&& shl32 s.DTMFdata3 3 &&& shl32 s.DTMFdata4 4
  let s := { s with DTMFdigit := d }
  let s := { s with ledOn := true }
  let s := { s with gpio := gpio_set_value s.gpio cfg.gpioLED (ofBool s.ledOn) }
  let s := { s with ts_current := env.now }
  let s := { s with ts_diff := timespec_sub s.ts_current s.ts_last }
  let s := { s with ts_last := s.ts_current }
  let s := { s with numberPresses := wrapInt (s.numberPresses + 1) }
  s

/-- Source `dtmfrx_irq_handler` (lines 316-383): the shared state it leaves and how it
ends. After the assignments of lines 317-328 the `switch` stores the decoded value
through `digit`; when that store faults the handler stops there, otherwise it
returns `IRQ_HANDLED`. -/
def dtmfrx_irq_handler (cfg : Config) (s : State) (env : IrqEnv) : State × Outcome :=
  let s := irq_update cfg s env
  match store_int s.mem s.digit (decode_switch s.DTMFdigit) with
  | none => (s, Outcome.fault)
  | some m => ({ s with mem := m }, Outcome.returned IrqReturn.IRQ_HANDLED)

/-- The shared states the running driver can be in: the state `dtmfrx_init` leaves
when it returns 0, and every state reached from there by a `store` callback or by an
invocation of the handler that returns. -/
inductive Reachable (cfg : Config) : State → Prop where
  | init (hw : Gpios) (mem : Nat → Int) (env : InitEnv) :
      (dtmfrx_init cfg (State.statics hw mem) env).2 = 0 →
      Reachable cfg (dtmfrx_init cfg (State.statics hw mem) env).1
  | numberPresses_store (s : State) (buf : String) (count : Nat) :
      Reachable cfg s → Reachable cfg (numberPresses_store s buf count).1
  | isDebounce_store (s : State) (buf : String) (count temp0 : Nat) :
      Reachable cfg s → Reachable cfg (isDebounce_store cfg s buf count temp0).1
  | isDTMFpd_store (s : State) (buf : String) (count temp0 : Nat) :
      Reachable cfg s → Reachable cfg (isDTMFpd_store cfg s buf count temp0).1
  | irq (s : State) (env : IrqEnv) (r : IrqReturn) :
      Reachable cfg s → (dtmfrx_irq_handler cfg s env).2 = Outcome.returned r →
      Reachable cfg (dtmfrx_irq_handler cfg s env).1

/-! ## Definitions that follow the specification's words -/

/-- The composition the specification describes:
`code = b0 | (b1<<1) | (b2<<2) | (b3<<3)`. -/
def spec_compose_or (b0 b1 b2 b3 : Nat) : Nat :=
  b0 ||| (b1 <<< 1) ||| (b2 <<< 2) ||| (b3 <<< 3)

/-- Two decimal digits of `k`, tens first: a value below 100 zero-padded to two digits. -/
def spec_two_digits (k : Nat) : List Char :=
  [Nat.digitChar (k / 10 % 10), Nat.digitChar (k % 10)]

/-- Nine decimal digits of `n`, most significant first: a value below `10^9`
zero-padded to nine digits. -/
def spec_nine_digits (n : Nat) : List Char :=
  [Nat.digitChar (n / 100000000 % 10), Nat.digitChar (n / 10000000 % 10),
   Nat.digitChar (n / 1000000 % 10), Nat.digitChar (n / 100000 % 10),
   Nat.digitChar (n / 10000 % 10), Nat.digitChar (n / 1000 % 10),
   Nat.digitChar (n / 100 % 10), Nat.digitChar (n / 10 % 10), Nat.digitChar (n % 10)]

/-- The `p` low decimal digits of `n`, least significant first. -/
def fixedDigitsRev : Nat → Nat → List Char
  | 0, _ => []
  | p + 1, n => Nat.digitChar (n % 10) :: fixedDigitsRev p (n / 10)

/-! ## Concrete inputs used in the examples -/

/-- A GPIO controller with every line idle. -/
def hw0 : Gpios := fun _ => { value := 0, debounce := 0, output := false, requested := false, exported := false }

/-- A kernel that lets `dtmfrx_init` succeed, at time 0. -/
def initEnv0 : InitEnv :=
  { kobj_ok := true, sysfs_result := 0, irq := 105, request_irq_result := 0, now := ⟨0, 0⟩ }

/-- The state after a successful `dtmfrx_init` with the default parameters. -/
def s0 : State := (dtmfrx_init Config.default (State.statics hw0 (fun _ => 0)) initEnv0).1

/-- An edge event with data lines `[1,0,0,0]` (only `gpioDTMFdata1` high), at 12 s. -/
def env1000 : IrqEnv := { pins := (fun g => g == 86), now := ⟨12, 500⟩ }

/-- The state after a successful `dtmfrx_init` in which `digit` is made to address an
`int` object (at address 4096), so that the store of the `switch` has a target. -/
def s0_digit : State := { s0 with digit := 4096 }

/-- An edge event with all four data lines high, at 13 s. -/
def env1111 : IrqEnv := { pins := (fun _ => true), now := ⟨13, 0⟩ }

end DtmfRx

namespace DtmfRx

/-! ## Basic facts about the embedding -/

theorem irq_update_digit (cfg : Config) (s : State) (env : IrqEnv) :
    (irq_update cfg s env).digit = s.digit := rfl

theorem irq_update_numberPresses (cfg : Config) (s : State) (env : IrqEnv) :
    (irq_update cfg s env).numberPresses = wrapInt (s.numberPresses + 1) := rfl

theorem handler_state_numberPresses (cfg : Config) (s : State) (env : IrqEnv) :
    (dtmfrx_irq_handler cfg s env).1.numberPresses = wrapInt (s.numberPresses + 1) := by
  unfold dtmfrx_irq_handler
  simp only
  split <;> rfl

theorem handler_state_digit (cfg : Config) (s : State) (env : IrqEnv) :
    (dtmfrx_irq_handler cfg s env).1.digit = s.digit := by
  unfold dtmfrx_irq_handler
  simp only
  split <;> rfl

theorem numberPresses_store_digit (s : State) (buf : String) (count : Nat) :
    (numberPresses_store s buf count).1.digit = s.digit := by
  unfold numberPresses_store
  simp only
  split <;> rfl

theorem isDebounce_store_digit (cfg : Config) (s : State) (buf : String) (count temp0 : Nat) :
    (isDebounce_store cfg s buf count temp0).1.digit = s.digit := by
  unfold isDebounce_store
  simp only
  split <;> rfl

theorem isDTMFpd_store_digit (cfg : Config) (s : State) (buf : String) (count temp0 : Nat) :
    (isDTMFpd_store cfg s buf count temp0).1.digit = s.digit := by
  unfold isDTMFpd_store
  simp only
  split <;> rfl

theorem dtmfrx_init_digit (cfg : Config) (s : State) (env : InitEnv) :
    (dtmfrx_init cfg s env).1.digit = s.digit := by
  unfold dtmfrx_init
  simp only
  split
  · rfl
  · split <;> rfl

/-- Nothing in the driver assigns the pointer `digit`: it is `NULL` in every
reachable state. -/
theorem reachable_digit_null (cfg : Config) (s : State) (h : Reachable cfg s) : s.digit = 0 := by
  induction h with
  | init hw mem env _ => rw [dtmfrx_init_digit]; rfl
  | numberPresses_store s buf count _ ih => rw [numberPresses_store_digit]; exact ih
  | isDebounce_store s buf count temp0 _ ih => rw [isDebounce_store_digit]; exact ih
  | isDTMFpd_store s buf count temp0 _ ih => rw [isDTMFpd_store_digit]; exact ih
  | irq s env r _ _ ih => rw [handler_state_digit]; exact ih

theorem s0_reachable : Reachable Config.default s0 :=
  Reachable.init hw0 (fun _ => 0) initEnv0 (by decide)

/-! ## C1: composition of the code from the four data lines -/

/-- C1: at data-line levels `[1,0,0,0]` the handler samples `DTMFdata1 = 1` and
`DTMFdata2..4 = 0`, but the code it composes into `DTMFdigit` is 0, while
`b0 | (b1<<1) | (b2<<2) | (b3<<3)` is 1; the `switch` then decodes 99 (invalid),
not the symbol 1. -/
theorem irq_handler_compose_1000 :
    (dtmfrx_irq_handler Config.default s0 env1000).1.DTMFdata1 = 1 ∧
    (dtmfrx_irq_handler Config.default s0 env1000).1.DTMFdata2 = 0 ∧
    (dtmfrx_irq_handler Config.default s0 env1000).1.DTMFdata3 = 0 ∧
    (dtmfrx_irq_handler Config.default s0 env1000).1.DTMFdata4 = 0 ∧
    (dtmfrx_irq_handler Config.default s0 env1000).1.DTMFdigit = 0 ∧
    spec_compose_or 1 0 0 0 = 1 ∧
    decode_switch (dtmfrx_irq_handler Config.default s0 env1000).1.DTMFdigit = 99 ∧
    decode_switch (spec_compose_or 1 0 0 0) = 1 := by
  decide

/-! ## C2: the decode switch -/

theorem decode_switch_large (k : Nat) : decode_switch (k + 17) = 99 := rfl

theorem handler_stores_decoded (cfg : Config) (s : State) (env : IrqEnv) (h : s.digit ≠ 0) :
    (dtmfrx_irq_handler cfg s env).2 = Outcome.returned IrqReturn.IRQ_HANDLED ∧
    (dtmfrx_irq_handler cfg s env).1.mem s.digit =
      decode_switch (dtmfrx_irq_handler cfg s env).1.DTMFdigit := by
  unfold dtmfrx_irq_handler
  simp only [irq_update_digit, store_int, h, if_false]
  simp

/-- C2: the `switch` of the handler maps every code `c` with `1 <= c <= 16` to the
value `c` itself (11..16 standing for `*`, `#`, `A`, `B`, `C`, `D`), so distinct codes
in `1..16` give distinct symbols, and it maps 0 and every code above 16 to 99
(invalid); when `digit` addresses an object, that value is what the handler stores
there. -/
theorem decode_switch_spec (c : Nat) :
    (1 ≤ c ∧ c ≤ 16 → decode_switch c = (c : Int)) ∧
    (c = 0 ∨ 16 < c → decode_switch c = 99) ∧
    (∀ d : Nat, 1 ≤ c ∧ c ≤ 16 → 1 ≤ d ∧ d ≤ 16 → decode_switch c = decode_switch d → c = d) ∧
    (∀ (cfg : Config) (s : State) (env : IrqEnv), s.digit ≠ 0 →
      (dtmfrx_irq_handler cfg s env).1.mem s.digit =
        decode_switch (dtmfrx_irq_handler cfg s env).1.DTMFdigit) := by
  have hin : ∀ x : Nat, 1 ≤ x ∧ x ≤ 16 → decode_switch x = (x : Int) := by
    intro x hx
    obtain ⟨h1, h2⟩ := hx
    interval_cases x <;> rfl
  refine ⟨hin c, ?_, ?_, ?_⟩
  · intro h
    rcases h with h | h
    · subst h; rfl
    · obtain ⟨k, rfl⟩ : ∃ k, c = k + 17 := ⟨c - 17, by omega⟩
      exact decode_switch_large k
  · intro d hc hd h
    rw [hin c hc, hin d hd] at h
    exact_mod_cast h
  · intro cfg s env h
    exact (handler_stores_decoded cfg s env h).2

/-- Witness of C2 at the codes 11 (`*`), 0 and 17. -/
theorem decode_switch_spec_witness :
    decode_switch 11 = 11 ∧ decode_switch 0 = 99 ∧ decode_switch 17 = 99 :=
  ⟨(decode_switch_spec 11).1 ⟨by decide, by decide⟩,
   (decode_switch_spec 0).2.1 (Or.inl rfl),
   (decode_switch_spec 17).2.1 (Or.inr (by decide))⟩

/-! ## C4: how an invocation of the handler ends -/

/-- C4: in every state reachable after `dtmfrx_init`, for every sampled levels and
clock reading, the handler does not return `IRQ_HANDLED`: `digit` is `NULL` there,
so the store `*digit = ...` of the `switch` faults. -/
theorem irq_handler_faults (cfg : Config) (s : State) (h : Reachable cfg s) (env : IrqEnv) :
    s.digit = 0 ∧
    (dtmfrx_irq_handler cfg s env).2 = Outcome.fault ∧
    (dtmfrx_irq_handler cfg s env).2 ≠ Outcome.returned IrqReturn.IRQ_HANDLED := by
  have hd := reachable_digit_null cfg s h
  have hf : (dtmfrx_irq_handler cfg s env).2 = Outcome.fault := by
    unfold dtmfrx_irq_handler
    simp only [irq_update_digit, store_int, hd, if_true]
  refine ⟨hd, hf, ?_⟩
  rw [hf]
  intro hc
  cases hc

/-- Witness of C4: the first edge event after a successful `dtmfrx_init`. -/
theorem irq_handler_faults_witness :
    Reachable Config.default s0 ∧
    (dtmfrx_irq_handler Config.default s0 env1000).2 = Outcome.fault :=
  ⟨s0_reachable, (irq_handler_faults Config.default s0 s0_reachable env1000).2.1⟩

/-! ## C3: the assignments of one invocation -/

theorem wrapInt_of_range (x : Int) (hlo : INT_MIN ≤ x) (hhi : x ≤ INT_MAX) : wrapInt x = x := by
  unfold wrapInt
  unfold INT_MIN at hlo
  unfold INT_MAX at hhi
  omega

theorem timespec_sub_toNs (a b : timespec) :
    (timespec_sub a b).toNs = a.toNs - b.toNs := by
  unfold timespec_sub set_normalized_timespec timespec.toNs
  simp only
  have h := Int.emod_add_ediv (a.tv_nsec - b.tv_nsec) NSEC_PER_SEC
  have e : (a.tv_sec - b.tv_sec + (a.tv_nsec - b.tv_nsec) / NSEC_PER_SEC) * NSEC_PER_SEC
      = (a.tv_sec - b.tv_sec) * NSEC_PER_SEC
        + NSEC_PER_SEC * ((a.tv_nsec - b.tv_nsec) / NSEC_PER_SEC) := by ring
  rw [e]
  linarith

theorem timespec_sub_nsec_range (a b : timespec) :
    0 ≤ (timespec_sub a b).tv_nsec ∧ (timespec_sub a b).tv_nsec < NSEC_PER_SEC := by
  unfold timespec_sub set_normalized_timespec
  simp only
  constructor
  · exact Int.emod_nonneg _ (by decide)
  · exact Int.emod_lt_of_pos _ (by decide)

/-- Every shared variable but `mem` is, after the handler, what lines 317-328 left. -/
theorem handler_state_fields (cfg : Config) (s : State) (env : IrqEnv) :
    (dtmfrx_irq_handler cfg s env).1.DTMFdata1 = (irq_update cfg s env).DTMFdata1 ∧
    (dtmfrx_irq_handler cfg s env).1.DTMFdata2 = (irq_update cfg s env).DTMFdata2 ∧
    (dtmfrx_irq_handler cfg s env).1.DTMFdata3 = (irq_update cfg s env).DTMFdata3 ∧
    (dtmfrx_irq_handler cfg s env).1.DTMFdata4 = (irq_update cfg s env).DTMFdata4 ∧
    (dtmfrx_irq_handler cfg s env).1.DTMFdigit = (irq_update cfg s env).DTMFdigit ∧
    (dtmfrx_irq_handler cfg s env).1.ledOn = (irq_update cfg s env).ledOn ∧
    (dtmfrx_irq_handler cfg s env).1.gpio = (irq_update cfg s env).gpio ∧
    (dtmfrx_irq_handler cfg s env).1.ts_diff = (irq_update cfg s env).ts_diff ∧
    (dtmfrx_irq_handler cfg s env).1.ts_last = (irq_update cfg s env).ts_last ∧
    (dtmfrx_irq_handler cfg s env).1.ts_current = (irq_update cfg s env).ts_current := by
  unfold dtmfrx_irq_handler
  simp only
  split <;> exact ⟨rfl, rfl, rfl, rfl, rfl, rfl, rfl, rfl, rfl, rfl⟩

/-- C3 as stated fails when the counter holds `INT_MAX`: the handler leaves
`-2147483648`, not the prior value plus one. -/
theorem irq_handler_numberPresses_at_INT_MAX :
    (dtmfrx_irq_handler Config.default { s0 with numberPresses := 2147483647 } env1000).1.numberPresses
      = -2147483648 ∧
    (dtmfrx_irq_handler Config.default { s0 with numberPresses := 2147483647 } env1000).1.numberPresses
      ≠ 2147483647 + 1 := by
  decide

/-- C3 (amended): for every prior state whose counter is an `int` below `INT_MAX`,
every sampled levels and every clock reading `t`, the handler leaves `DTMFdata1..4`
equal to the four sampled levels, `ledOn` true and the indicator line driven to 1,
`ts_diff` equal to `t` minus the prior `ts_last` (as a normalised `timespec`),
`ts_last` equal to `t`, and `numberPresses` equal to its prior value plus one; from
the initial state with levels `[1,0,0,0]`, `numberPresses` reads 1, `ledOn` reads 1,
`DTMFdata1` reads 1 and `DTMFdata2..4` read 0. -/
theorem irq_handler_assigns (cfg : Config) (s : State) (env : IrqEnv)
    (hlo : INT_MIN ≤ s.numberPresses) (hhi : s.numberPresses < INT_MAX) :
    (dtmfrx_irq_handler cfg s env).1.DTMFdata1 = gpio_get_value env.pins cfg.gpioDTMFdata1 ∧
    (dtmfrx_irq_handler cfg s env).1.DTMFdata2 = gpio_get_value env.pins cfg.gpioDTMFdata2 ∧
    (dtmfrx_irq_handler cfg s env).1.DTMFdata3 = gpio_get_value env.pins cfg.gpioDTMFdata3 ∧
    (dtmfrx_irq_handler cfg s env).1.DTMFdata4 = gpio_get_value env.pins cfg.gpioDTMFdata4 ∧
    (dtmfrx_irq_handler cfg s env).1.ledOn = true ∧
    ((dtmfrx_irq_handler cfg s env).1.gpio cfg.gpioLED).value = 1 ∧
    (dtmfrx_irq_handler cfg s env).1.ts_diff = timespec_sub env.now s.ts_last ∧
    (dtmfrx_irq_handler cfg s env).1.ts_diff.toNs = env.now.toNs - s.ts_last.toNs ∧
    (0 ≤ (dtmfrx_irq_handler cfg s env).1.ts_diff.tv_nsec ∧
      (dtmfrx_irq_handler cfg s env).1.ts_diff.tv_nsec < NSEC_PER_SEC) ∧
    (dtmfrx_irq_handler cfg s env).1.ts_last = env.now ∧
    (dtmfrx_irq_handler cfg s env).1.numberPresses = s.numberPresses + 1 ∧
    (numberPresses_show (dtmfrx_irq_handler Config.default s0 env1000).1 = "1\n" ∧
      ledOn_show (dtmfrx_irq_handler Config.default s0 env1000).1 = "1\n" ∧
      DTMFdata1_show (dtmfrx_irq_handler Config.default s0 env1000).1 = "1\n" ∧
      DTMFdata2_show (dtmfrx_irq_handler Config.default s0 env1000).1 = "0\n" ∧
      DTMFdata3_show (dtmfrx_irq_handler Config.default s0 env1000).1 = "0\n" ∧
      DTMFdata4_show (dtmfrx_irq_handler Config.default s0 env1000).1 = "0\n") := by
  obtain ⟨h1, h2, h3, h4, _, h6, h7, h8, h9, _⟩ := handler_state_fields cfg s env
  have hd : (dtmfrx_irq_handler cfg s env).1.ts_diff = timespec_sub env.now s.ts_last := by
    rw [h8]; rfl
  have hled : ((dtmfrx_irq_handler cfg s env).1.gpio cfg.gpioLED).value = 1 := by
    rw [h7]
    simp [irq_update, gpio_set_value, Gpios.set, ofBool]
  refine ⟨by rw [h1]; rfl, by rw [h2]; rfl, by rw [h3]; rfl, by rw [h4]; rfl, by rw [h6]; rfl,
    hled, hd, ?_, ?_, by rw [h9]; rfl, ?_, by decide⟩
  · rw [hd]; exact timespec_sub_toNs _ _
  · rw [hd]; exact timespec_sub_nsec_range _ _
  · rw [handler_state_numberPresses]
    exact wrapInt_of_range _ (by omega) (by omega)

/-- Witness of C3 (amended): the first edge event after `dtmfrx_init`. -/
theorem irq_handler_assigns_witness :
    INT_MIN ≤ s0.numberPresses ∧ s0.numberPresses < INT_MAX ∧
    (dtmfrx_irq_handler Config.default s0 env1000).1.ledOn = true ∧
    (dtmfrx_irq_handler Config.default s0 env1000).1.numberPresses = s0.numberPresses + 1 :=
  ⟨by decide, by decide,
   (irq_handler_assigns Config.default s0 env1000 (by decide) (by decide)).2.2.2.2.1,
   (irq_handler_assigns Config.default s0 env1000 (by decide) (by decide)).2.2.2.2.2.2.2.2.2.2.1⟩

/-! ## C6: monotonicity of the counter -/

/-- C6 as stated fails: after `2147483647` is written to `numberPresses`, one
invocation of the handler leaves `-2147483648`, which is smaller. -/
theorem irq_handler_numberPresses_decreases :
    (numberPresses_store s0 "2147483647" 10).1.numberPresses = 2147483647 ∧
    (dtmfrx_irq_handler Config.default (numberPresses_store s0 "2147483647" 10).1
        env1000).1.numberPresses = -2147483648 ∧
    ¬ ((numberPresses_store s0 "2147483647" 10).1.numberPresses ≤
        (dtmfrx_irq_handler Config.default (numberPresses_store s0 "2147483647" 10).1
          env1000).1.numberPresses) := by
  decide

/-- C6 (amended): for every state whose counter is an `int` below `INT_MAX`, the
value of `numberPresses` after one invocation of the handler is greater than or
equal to (indeed one more than) its value before. -/
theorem irq_handler_numberPresses_mono (cfg : Config) (s : State) (env : IrqEnv)
    (hlo : INT_MIN ≤ s.numberPresses) (hhi : s.numberPresses < INT_MAX) :
    s.numberPresses ≤ (dtmfrx_irq_handler cfg s env).1.numberPresses ∧
    (dtmfrx_irq_handler cfg s env).1.numberPresses = s.numberPresses + 1 := by
  have h : (dtmfrx_irq_handler cfg s env).1.numberPresses = s.numberPresses + 1 := by
    rw [handler_state_numberPresses]
    exact wrapInt_of_range _ (by omega) (by omega)
  exact ⟨by omega, h⟩

/-- Witness of C6 (amended): the counter goes from 0 to 1 at the first edge event. -/
theorem irq_handler_numberPresses_mono_witness :
    INT_MIN ≤ s0.numberPresses ∧ s0.numberPresses < INT_MAX ∧
    s0.numberPresses ≤ (dtmfrx_irq_handler Config.default s0 env1000).1.numberPresses :=
  ⟨by decide, by decide,
   (irq_handler_numberPresses_mono Config.default s0 env1000 (by decide) (by decide)).1⟩

/-! ## Decimal conversions: printing and scanning agree -/

theorem digitChar_facts (d : Nat) (h : d < 10) :
    (Nat.digitChar d).isDigit = true ∧ (Nat.digitChar d).toNat - 48 = d ∧
    isspace (Nat.digitChar d) = false ∧ Nat.digitChar d ≠ '-' := by
  interval_cases d <;> decide

theorem put_dec_ne_nil (fuel n : Nat) : put_dec (fuel + 1) n ≠ [] := by
  simp [put_dec]

theorem put_dec_digits (fuel n : Nat) :
    ∀ c ∈ put_dec fuel n, ∃ d, d < 10 ∧ c = Nat.digitChar d := by
  induction fuel generalizing n with
  | zero => intro c hc; simp [put_dec] at hc
  | succ f ih =>
    intro c hc
    simp only [put_dec, List.mem_cons] at hc
    rcases hc with hc | hc
    · exact ⟨n % 10, Nat.mod_lt _ (by decide), hc⟩
    · split at hc
      · simp at hc
      · exact ih _ c hc

/-- Scanning the digits that `put_dec` produced, most significant first, appends the
number to what has been accumulated. -/
theorem simple_strtoull_put_dec (fuel n : Nat) (r : List Char) (acc : Nat) (h : n < fuel) :
    simple_strtoull ((put_dec fuel n).reverse ++ r) acc =
      simple_strtoull r (acc * 10 ^ (put_dec fuel n).length + n) := by
  induction fuel generalizing n r acc with
  | zero => omega
  | succ f ih =>
    obtain ⟨hd, hv, _, _⟩ := digitChar_facts (n % 10) (Nat.mod_lt _ (by decide))
    by_cases h0 : n / 10 = 0
    · have hn : n % 10 = n := Nat.mod_eq_of_lt (by omega)
      simp only [put_dec, h0, if_true, List.reverse_cons, List.reverse_nil, List.nil_append,
        List.singleton_append, List.length_singleton, pow_one, simple_strtoull, hd, hv]
      rw [hn]
    · have hlt : n / 10 < f := by omega
      simp only [put_dec, h0, if_false, List.reverse_cons, List.append_assoc,
        List.singleton_append, List.length_cons]
      rw [ih (n / 10) (Nat.digitChar (n % 10) :: r) acc hlt]
      simp only [simple_strtoull, hd, hv, if_true]
      congr 1
      have := Nat.div_add_mod n 10
      rw [pow_succ]
      nlinarith [Nat.div_add_mod n 10]

theorem toDigitsCore_eq_put_dec (fuel n : Nat) (ds : List Char) :
    Nat.toDigitsCore 10 fuel n ds = (put_dec fuel n).reverse ++ ds := by
  induction fuel generalizing n ds with
  | zero => simp [Nat.toDigitsCore, put_dec]
  | succ f ih =>
    by_cases h0 : n / 10 = 0
    · simp [Nat.toDigitsCore, put_dec, h0]
    · simp [Nat.toDigitsCore, put_dec, h0, ih]

/-- The conversion `%d`/`%lu` of a natural number writes its usual decimal numeral. -/
theorem number_zero_eq_toDigits (n : Nat) : number 0 n = Nat.toDigits 10 n := by
  simp [number, Nat.toDigits, toDigitsCore_eq_put_dec]

theorem number_d_natCast (n : Nat) : number_d (n : Int) = (toString n).data := by
  have h : ¬ ((n : Int) < 0) := by omega
  simp only [number_d, h, if_false, Int.toNat_ofNat, number_zero_eq_toDigits]
  rfl

theorem sprintf_d_nl_natCast (n : Nat) : sprintf_d_nl (n : Int) = toString n ++ "\n" := by
  unfold sprintf_d_nl
  rw [number_d_natCast]
  rfl

theorem wrapInt_range (x : Int) : INT_MIN ≤ wrapInt x ∧ wrapInt x ≤ INT_MAX := by
  unfold wrapInt INT_MIN INT_MAX
  omega

/-- Whatever `%d` converts is an `int`. -/
theorem sscanf_d_range (buf : List Char) (v : Int) (h : sscanf_d buf = some v) :
    INT_MIN ≤ v ∧ v ≤ INT_MAX := by
  unfold sscanf_d at h
  split at h
  · cases h
  · split at h
    · cases h
    · split at h
      · rw [← Option.some.inj h]; exact wrapInt_range _
      · cases h
  · split at h
    · rw [← Option.some.inj h]; exact wrapInt_range _
    · cases h

theorem sscanf_d_digit_head (d : Nat) (hd : d < 10) (cs : List Char) :
    sscanf_d (Nat.digitChar d :: cs) =
      some (wrapInt (simple_strtoull (Nat.digitChar d :: cs) 0 : Nat)) := by
  interval_cases d <;> rfl

/-- Scanning the decimal numeral of `n` with `%d` gives `n` converted to `int`. -/
theorem sscanf_d_toString (n : Nat) : sscanf_d (toString n).data = some (wrapInt n) := by
  have hdata : (toString n).data = (put_dec (n + 1) n).reverse := by
    show Nat.toDigits 10 n = _
    simp [Nat.toDigits, toDigitsCore_eq_put_dec]
  rw [hdata]
  have hval := simple_strtoull_put_dec (n + 1) n [] 0 (Nat.lt_succ_self n)
  simp only [List.append_nil, zero_mul, zero_add, simple_strtoull] at hval
  cases hl : (put_dec (n + 1) n).reverse with
  | nil =>
    exfalso
    have := put_dec_ne_nil n n
    simp at hl
    exact this hl
  | cons c cs =>
    have hc : c ∈ put_dec (n + 1) n := by
      have : c ∈ (put_dec (n + 1) n).reverse := by rw [hl]; simp
      simpa using this
    obtain ⟨d, hd, rfl⟩ := put_dec_digits (n + 1) n c hc
    rw [sscanf_d_digit_head d hd cs, ← hl, hval]

/-! ## C5: write, read back, count one more event -/

theorem numberPresses_store_toString (s : State) (count n : Nat) (h : (n : Int) ≤ INT_MAX) :
    (numberPresses_store s (toString n) count).1.numberPresses = (n : Int) := by
  unfold numberPresses_store
  simp only [sscanf_d_toString]
  exact wrapInt_of_range _ (by unfold INT_MIN; omega) h

/-- C5: for every `n` with `0 <= n < 2^31 - 1`, after the decimal text of `n` is
written through `numberPresses_store` (which returns `count`),
`numberPresses_show` gives the decimal text of `n` followed by a newline, and on the
state one further invocation of the handler leaves it gives the text of `n + 1`. -/
theorem numberPresses_roundtrip (cfg : Config) (s : State) (env : IrqEnv) (count n : Nat)
    (h : (n : Int) < INT_MAX) :
    (numberPresses_store s (toString n) count).2 = count ∧
    numberPresses_show (numberPresses_store s (toString n) count).1 = toString n ++ "\n" ∧
    numberPresses_show (dtmfrx_irq_handler cfg (numberPresses_store s (toString n) count).1 env).1
      = toString (n + 1) ++ "\n" := by
  have hst := numberPresses_store_toString s count n (le_of_lt h)
  refine ⟨rfl, ?_, ?_⟩
  · unfold numberPresses_show
    rw [hst]
    exact sprintf_d_nl_natCast n
  · unfold numberPresses_show
    rw [handler_state_numberPresses, hst,
      wrapInt_of_range _ (by unfold INT_MIN; omega) (by omega)]
    exact_mod_cast sprintf_d_nl_natCast (n + 1)

/-- Witness of C5: 42 reads back as 42, then as 43 after one edge event. -/
theorem numberPresses_roundtrip_witness :
    numberPresses_show (numberPresses_store s0 "42" 2).1 = "42\n" ∧
    numberPresses_show (dtmfrx_irq_handler Config.default (numberPresses_store s0 "42" 2).1
      env1000).1 = "43\n" :=
  (numberPresses_roundtrip Config.default s0 env1000 2 42 (by decide)).2

/-! ## C7: writes of text that holds no number -/

theorem toBool_toUInt (v : Int) (hlo : INT_MIN ≤ v) (hhi : v ≤ INT_MAX) :
    toBool (toUInt v) = decide (v ≠ 0) := by
  unfold INT_MIN at hlo
  unfold INT_MAX at hhi
  have h : toUInt v = 0 ↔ v = 0 := by
    unfold toUInt
    omega
  by_cases hv : v = 0
  · subst hv; decide
  · have h2 : toUInt v ≠ 0 := fun hc => hv (h.mp hc)
    simp [toBool, hv, h2]

theorem isDebounce_store_none (cfg : Config) (s : State) (buf : String) (count temp0 : Nat)
    (h : sscanf_d buf.data = none) :
    (isDebounce_store cfg s buf count temp0).1.isDebounce = toBool temp0 := by
  unfold isDebounce_store
  simp only [h]
  split <;> rfl

theorem isDTMFpd_store_none (cfg : Config) (s : State) (buf : String) (count temp0 : Nat)
    (h : sscanf_d buf.data = none) :
    (isDTMFpd_store cfg s buf count temp0).1.isDTMFpd = toBool temp0 := by
  unfold isDTMFpd_store
  simp only [h]
  split <;> rfl

/-- C7: the text `abc` holds no number. `numberPresses_store` leaves the counter as it
was, and all three callbacks return `count`; but `isDebounce_store` and
`isDTMFpd_store` then use the local `temp` that nothing has written: with `temp`
holding 0, `isDebounce_store` turns `isDebounce` from 1 to 0 and the detected line's
debounce interval from 20 to 0; with `temp` holding 1, `isDTMFpd_store` turns `isDTMFpd`
from 0 to 1 and drives the power-down line from 0 to 1; and whatever `temp` holds,
there is a reachable prior state in which the flag is changed by the write. -/
theorem store_nonnumeric_not_noop :
    sscanf_d "abc".data = none ∧
    ((numberPresses_store s0 "abc" 3).2 = 3 ∧
      (numberPresses_store s0 "abc" 3).1.numberPresses = s0.numberPresses) ∧
    ((isDebounce_store Config.default s0 "abc" 3 0).2 = 3 ∧
      s0.isDebounce = true ∧
      (isDebounce_store Config.default s0 "abc" 3 0).1.isDebounce = false ∧
      (s0.gpio Config.default.gpioDTMFdetected).debounce = 20 ∧
      ((isDebounce_store Config.default s0 "abc" 3 0).1.gpio
        Config.default.gpioDTMFdetected).debounce = 0) ∧
    ((isDTMFpd_store Config.default s0 "abc" 3 1).2 = 3 ∧
      s0.isDTMFpd = false ∧
      (isDTMFpd_store Config.default s0 "abc" 3 1).1.isDTMFpd = true ∧
      (s0.gpio Config.default.gpioDTMFpd).value = 0 ∧
      ((isDTMFpd_store Config.default s0 "abc" 3 1).1.gpio
        Config.default.gpioDTMFpd).value = 1) ∧
    (∀ temp0 : Nat, ∃ s, Reachable Config.default s ∧
      (isDebounce_store Config.default s "abc" 3 temp0).1.isDebounce ≠ s.isDebounce) ∧
    (∀ temp0 : Nat, ∃ s, Reachable Config.default s ∧
      (isDTMFpd_store Config.default s "abc" 3 temp0).1.isDTMFpd ≠ s.isDTMFpd) := by
  have hnone : sscanf_d "abc".data = none := by decide
  refine ⟨hnone, by decide, by decide, by decide, ?_, ?_⟩
  · intro temp0
    by_cases h0 : temp0 = 0
    · refine ⟨s0, s0_reachable, ?_⟩
      rw [isDebounce_store_none _ _ _ _ _ hnone, h0]
      decide
    · refine ⟨(isDebounce_store Config.default s0 "0" 1 0).1,
        Reachable.isDebounce_store s0 "0" 1 0 s0_reachable, ?_⟩
      rw [isDebounce_store_none _ _ _ _ _ hnone]
      have hb : toBool temp0 = true := by simp [toBool, h0]
      rw [hb]
      decide
  · intro temp0
    by_cases h0 : temp0 = 0
    · refine ⟨(isDTMFpd_store Config.default s0 "1" 1 0).1,
        Reachable.isDTMFpd_store s0 "1" 1 0 s0_reachable, ?_⟩
      rw [isDTMFpd_store_none _ _ _ _ _ hnone, h0]
      decide
    · refine ⟨s0, s0_reachable, ?_⟩
      rw [isDTMFpd_store_none _ _ _ _ _ hnone]
      have hb : toBool temp0 = true := by simp [toBool, h0]
      rw [hb]
      decide

/-! ## C8: the debounce toggle -/

theorem isDebounce_store_some (cfg : Config) (s : State) (buf : String) (count temp0 : Nat)
    (v : Int) (h : sscanf_d buf.data = some v) :
    (isDebounce_store cfg s buf count temp0).1.isDebounce = decide (v ≠ 0) ∧
    ((isDebounce_store cfg s buf count temp0).1.gpio cfg.gpioDTMFdetected).debounce =
      (if v ≠ 0 then DEBOUNCE_TIME else 0) := by
  obtain ⟨hlo, hhi⟩ := sscanf_d_range _ _ h
  have hb := toBool_toUInt v hlo hhi
  unfold isDebounce_store
  simp only [h, hb]
  by_cases hv : v = 0
  · simp [hv, gpio_set_debounce, Gpios.set]
  · simp [hv, gpio_set_debounce, Gpios.set]

theorem sscanf_d_zero : sscanf_d "0".data = some 0 := by decide

theorem sscanf_d_one : sscanf_d "1".data = some 1 := by decide

/-- C8: for every prior state and every text from which `%d` converts an integer
`v`, after `isDebounce_store` (which returns `count`) the detected line's debounce
interval is `DEBOUNCE_TIME` = 20 when `v != 0` and 0 when `v = 0`, and
`isDebounce_show` reads 1 or 0 accordingly, whatever the prior state; hence writing
0 then 1 leaves the interval at 0 after the first write and at 20 after the second,
and writing 1 twice leaves 20, the same as writing it once. -/
theorem isDebounce_store_spec (cfg : Config) (s : State) (buf : String) (count temp0 : Nat)
    (v : Int) (h : sscanf_d buf.data = some v) :
    (isDebounce_store cfg s buf count temp0).2 = count ∧
    ((isDebounce_store cfg s buf count temp0).1.gpio cfg.gpioDTMFdetected).debounce =
      (if v ≠ 0 then DEBOUNCE_TIME else 0) ∧
    DEBOUNCE_TIME = 20 ∧
    isDebounce_show (isDebounce_store cfg s buf count temp0).1 =
      (if v ≠ 0 then "1\n" else "0\n") ∧
    ((isDebounce_store cfg s "0" 1 temp0).1.gpio cfg.gpioDTMFdetected).debounce = 0 ∧
    ((isDebounce_store cfg (isDebounce_store cfg s "0" 1 temp0).1 "1" 1 temp0).1.gpio
      cfg.gpioDTMFdetected).debounce = 20 ∧
    ((isDebounce_store cfg s "1" 1 temp0).1.gpio cfg.gpioDTMFdetected).debounce = 20 ∧
    ((isDebounce_store cfg (isDebounce_store cfg s "1" 1 temp0).1 "1" 1 temp0).1.gpio
      cfg.gpioDTMFdetected).debounce = 20 := by
  obtain ⟨hflag, hdeb⟩ := isDebounce_store_some cfg s buf count temp0 v h
  refine ⟨rfl, hdeb, rfl, ?_, ?_, ?_, ?_, ?_⟩
  · unfold isDebounce_show
    rw [hflag]
    by_cases hv : v = 0
    · simp [hv]; decide
    · simp [hv]; decide
  · exact (isDebounce_store_some cfg s "0" 1 temp0 0 sscanf_d_zero).2
  · exact (isDebounce_store_some cfg _ "1" 1 temp0 1 sscanf_d_one).2
  · exact (isDebounce_store_some cfg s "1" 1 temp0 1 sscanf_d_one).2
  · exact (isDebounce_store_some cfg _ "1" 1 temp0 1 sscanf_d_one).2

/-- Witness of C8: writing `1` after a successful `dtmfrx_init`. -/
theorem isDebounce_store_spec_witness :
    sscanf_d "1\n".data = some 1 ∧
    ((isDebounce_store Config.default s0 "1\n" 2 0).1.gpio
      Config.default.gpioDTMFdetected).debounce = (if (1 : Int) ≠ 0 then DEBOUNCE_TIME else 0) :=
  ⟨by decide, (isDebounce_store_spec Config.default s0 "1\n" 2 0 1 (by decide)).2.1⟩

/-! ## C9: the power-down toggle -/

/-- C9 as stated fails: after a successful `dtmfrx_init` the detected line's debounce
interval is 20, and it is still 20, not 0, after `1` is written to `isDTMFpd`. -/
theorem isDTMFpd_store_keeps_debounce :
    sscanf_d "1".data = some 1 ∧
    ((isDTMFpd_store Config.default s0 "1" 1 0).1.gpio
      Config.default.gpioDTMFdetected).debounce = 20 ∧
    ((isDTMFpd_store Config.default s0 "1" 1 0).1.gpio
      Config.default.gpioDTMFdetected).debounce ≠ 0 := by
  decide

/-- C9 (amended): for every prior state and every text from which `%d` converts an
integer `v`, after `isDTMFpd_store` (which returns `count`) the power-down line is at
level 1 when `v != 0` and at level 0 when `v = 0`, `isDTMFpd_show` reads 1 or 0
accordingly, and when powering down (`v != 0`) the debounce interval of every line,
the detected line included, is what it was before the write. -/
theorem isDTMFpd_store_spec (cfg : Config) (s : State) (buf : String) (count temp0 : Nat)
    (v : Int) (h : sscanf_d buf.data = some v) :
    (isDTMFpd_store cfg s buf count temp0).2 = count ∧
    ((isDTMFpd_store cfg s buf count temp0).1.gpio cfg.gpioDTMFpd).value =
      (if v ≠ 0 then 1 else 0) ∧
    isDTMFpd_show (isDTMFpd_store cfg s buf count temp0).1 =
      (if v ≠ 0 then "1\n" else "0\n") ∧
    (v ≠ 0 → ∀ g : Nat, ((isDTMFpd_store cfg s buf count temp0).1.gpio g).debounce =
      (s.gpio g).debounce) := by
  obtain ⟨hlo, hhi⟩ := sscanf_d_range _ _ h
  have hb := toBool_toUInt v hlo hhi
  refine ⟨rfl, ?_, ?_, ?_⟩
  · unfold isDTMFpd_store
    simp only [h, hb]
    by_cases hv : v = 0
    · simp [hv, gpio_set_debounce, gpio_set_value, Gpios.set]
    · simp [hv, gpio_set_value, Gpios.set, ofBool]
  · unfold isDTMFpd_show isDTMFpd_store
    simp only [h, hb]
    by_cases hv : v = 0
    · simp [hv]; decide
    · simp [hv]; decide
  · intro hv g
    unfold isDTMFpd_store
    simp only [h, hb]
    by_cases hg : g = cfg.gpioDTMFpd
    · simp [hv, gpio_set_value, Gpios.set, hg]
    · simp [hv, gpio_set_value, Gpios.set, hg]

/-- Witness of C9 (amended): writing `1` after a successful `dtmfrx_init`. -/
theorem isDTMFpd_store_spec_witness :
    sscanf_d "1\n".data = some 1 ∧
    ((isDTMFpd_store Config.default s0 "1\n" 2 0).1.gpio Config.default.gpioDTMFpd).value =
      (if (1 : Int) ≠ 0 then 1 else 0) ∧
    ((isDTMFpd_store Config.default s0 "1\n" 2 0).1.gpio
      Config.default.gpioDTMFdetected).debounce =
      (s0.gpio Config.default.gpioDTMFdetected).debounce :=
  ⟨by decide, (isDTMFpd_store_spec Config.default s0 "1\n" 2 0 1 (by decide)).2.1,
   (isDTMFpd_store_spec Config.default s0 "1\n" 2 0 1 (by decide)).2.2.2 (by decide)
     Config.default.gpioDTMFdetected⟩

/-! ## C10: the text of `lastTime` -/

theorem fixedDigitsRev_zero (p : Nat) : fixedDigitsRev p 0 = List.replicate p '0' := by
  induction p with
  | zero => rfl
  | succ p ih =>
    show Nat.digitChar (0 % 10) :: fixedDigitsRev p (0 / 10) = _
    rw [Nat.zero_div, ih]
    rfl

theorem put_dec_length_le (p : Nat) :
    ∀ fuel n : Nat, 1 ≤ p → n < 10 ^ p → n < fuel → (put_dec fuel n).length ≤ p := by
  induction p with
  | zero => intro fuel n hp; omega
  | succ p ih =>
    intro fuel n _ hn hf
    cases fuel with
    | zero => omega
    | succ f =>
      by_cases h0 : n / 10 = 0
      · simp [put_dec, h0]
      · have hp1 : 1 ≤ p := by
          rcases Nat.eq_zero_or_pos p with hp0 | hp0
          · subst hp0; omega
          · exact hp0
        have hlt : n / 10 < 10 ^ p := by
          rw [pow_succ] at hn
          omega
        have := ih f (n / 10) hp1 hlt (by omega)
        simp only [put_dec, h0, if_false, List.length_cons]
        omega

/-- Padding the digits of `n` with zeros up to `p` digits gives the `p` low digits of
`n`, when `n` has at most `p` digits. -/
theorem put_dec_pad (p : Nat) :
    ∀ fuel n : Nat, 1 ≤ p → n < 10 ^ p → n < fuel →
      put_dec fuel n ++ List.replicate (p - (put_dec fuel n).length) '0' = fixedDigitsRev p n := by
  induction p with
  | zero => intro fuel n hp; omega
  | succ p ih =>
    intro fuel n _ hn hf
    cases fuel with
    | zero => omega
    | succ f =>
      by_cases h0 : n / 10 = 0
      · simp only [put_dec, h0, if_true, List.length_singleton, Nat.add_sub_cancel,
          List.singleton_append, fixedDigitsRev, fixedDigitsRev_zero]
      · have hp1 : 1 ≤ p := by
          rcases Nat.eq_zero_or_pos p with hp0 | hp0
          · subst hp0; omega
          · exact hp0
        have hlt : n / 10 < 10 ^ p := by
          rw [pow_succ] at hn
          omega
        have := ih f (n / 10) hp1 hlt (by omega)
        simp only [put_dec, h0, if_false, List.length_cons, List.cons_append, fixedDigitsRev,
          Nat.add_sub_add_right]
        rw [this]

theorem number_eq_fixed (p n : Nat) (hp : 1 ≤ p) (hn : n < 10 ^ p) :
    number p n = (fixedDigitsRev p n).reverse := by
  rw [← put_dec_pad p (n + 1) n hp hn (Nat.lt_succ_self n)]
  simp [number]

theorem number_two (k : Nat) (hk : k < 100) : number 2 k = spec_two_digits k := by
  rw [number_eq_fixed 2 k (by decide) (by omega)]
  simp [fixedDigitsRev, spec_two_digits]

theorem number_nine (n : Nat) (hn : n < 1000000000) : number 9 n = spec_nine_digits n := by
  rw [number_eq_fixed 9 n (by decide) (by omega)]
  simp [fixedDigitsRev, spec_nine_digits, Nat.div_div_eq_div_mul]

theorem lastTime_fields (sec nsec : Int) (hsec : 0 ≤ sec) (hn0 : 0 ≤ nsec)
    (hn1 : nsec < 1000000000) :
    toULong (Int.tmod (Int.tdiv sec 3600) 24) = sec.toNat / 3600 % 24 ∧
    toULong (Int.tmod (Int.tdiv sec 60) 60) = sec.toNat / 60 % 60 ∧
    toULong (Int.tmod sec 60) = sec.toNat % 60 ∧
    toULong nsec = nsec.toNat := by
  have e1 : Int.tdiv sec 3600 = sec / 3600 := Int.tdiv_eq_ediv hsec (by decide)
  have e2 : Int.tdiv sec 60 = sec / 60 := Int.tdiv_eq_ediv hsec (by decide)
  have e3 : Int.tmod (sec / 3600) 24 = sec / 3600 % 24 :=
    Int.tmod_eq_emod (by omega) (by decide)
  have e4 : Int.tmod (sec / 60) 60 = sec / 60 % 60 :=
    Int.tmod_eq_emod (by omega) (by decide)
  have e5 : Int.tmod sec 60 = sec % 60 := Int.tmod_eq_emod hsec (by decide)
  rw [e1, e2, e3, e4, e5]
  unfold toULong
  refine ⟨?_, ?_, ?_, ?_⟩ <;> omega

/-- C10 as stated fails: for `ts_last` = 45296 s and 7 ns (12:34:56) the text is
`12:34:56:000000007`, a space and a newline; a colon, not a dot, precedes the
nanoseconds. -/
theorem lastTime_show_colon :
    lastTime_show { s0 with ts_last := ⟨45296, 7⟩ } = "12:34:56:000000007 \n" ∧
    lastTime_show { s0 with ts_last := ⟨45296, 7⟩ } ≠ "12:34:56.000000007" := by
  decide

/-- C10 (amended): for every `ts_last` with `tv_sec >= 0` and `0 <= tv_nsec < 10^9`,
the text `lastTime_show` produces is exactly `HH:MM:SS:nnnnnnnnn` followed by a space
and a newline (20 characters): `HH = (tv_sec / 3600) mod 24`, `MM = (tv_sec / 60) mod 60`
and `SS = tv_sec mod 60`, each zero-padded to two digits and separated by colons, then
a colon, then `tv_nsec` zero-padded to nine digits; states with the same `ts_last`
yield the same text. -/
theorem lastTime_show_format (s : State) (hsec : 0 ≤ s.ts_last.tv_sec)
    (hn0 : 0 ≤ s.ts_last.tv_nsec) (hn1 : s.ts_last.tv_nsec < 1000000000) :
    lastTime_show s = String.mk (
      spec_two_digits (s.ts_last.tv_sec.toNat / 3600 % 24) ++ [':'] ++
      spec_two_digits (s.ts_last.tv_sec.toNat / 60 % 60) ++ [':'] ++
      spec_two_digits (s.ts_last.tv_sec.toNat % 60) ++ [':'] ++
      spec_nine_digits s.ts_last.tv_nsec.toNat ++ [' ', '\n']) ∧
    (lastTime_show s).length = 20 ∧
    (∀ s2 : State, s2.ts_last = s.ts_last → lastTime_show s2 = lastTime_show s) := by
  obtain ⟨f1, f2, f3, f4⟩ := lastTime_fields _ _ hsec hn0 hn1
  have hfmt : lastTime_show s = String.mk (
      spec_two_digits (s.ts_last.tv_sec.toNat / 3600 % 24) ++ [':'] ++
      spec_two_digits (s.ts_last.tv_sec.toNat / 60 % 60) ++ [':'] ++
      spec_two_digits (s.ts_last.tv_sec.toNat % 60) ++ [':'] ++
      spec_nine_digits s.ts_last.tv_nsec.toNat ++ [' ', '\n']) := by
    unfold lastTime_show
    rw [f1, f2, f3, f4, number_two _ (by omega), number_two _ (by omega),
      number_two _ (by omega), number_nine _ (by omega)]
  refine ⟨hfmt, ?_, ?_⟩
  · rw [hfmt]
    simp [String.length, spec_two_digits, spec_nine_digits]
  · intro s2 h2
    unfold lastTime_show
    rw [h2]

/-- Witness of C10 (amended): 12:34:56 and 7 ns. -/
theorem lastTime_show_format_witness :
    lastTime_show { s0 with ts_last := ⟨45296, 7⟩ } = "12:34:56:000000007 \n" ∧
    (lastTime_show { s0 with ts_last := ⟨45296, 7⟩ }).length = 20 :=
  ⟨(lastTime_show_format { s0 with ts_last := ⟨45296, 7⟩ } (by decide) (by decide)
      (by decide)).1.trans (by decide),
   (lastTime_show_format { s0 with ts_last := ⟨45296, 7⟩ } (by decide) (by decide)
      (by decide)).2.1⟩

/-! ## C12: what the composition of line 321 yields -/

theorem and_compose_zero (b1 b3 b4 : Bool) :
    shl32 (ofBool b1) 1 &&& shl32 (ofBool b1) 1 &&& shl32 (ofBool b3) 3 &&& shl32 (ofBool b4) 4
      = 0 := by
  cases b1 <;> cases b3 <;> cases b4 <;> decide

theorem irq_update_DTMFdigit (cfg : Config) (s : State) (env : IrqEnv) :
    (irq_update cfg s env).DTMFdigit =
      shl32 (gpio_get_value env.pins cfg.gpioDTMFdata1) 1 &&&
      shl32 (gpio_get_value env.pins cfg.gpioDTMFdata1) 1 &&&
      shl32 (gpio_get_value env.pins cfg.gpioDTMFdata3) 3 &&&
      shl32 (gpio_get_value env.pins cfg.gpioDTMFdata4) 4 := rfl

/-- C12: for every prior state and every four sampled data-line levels (each 0 or 1),
the code the handler composes into `DTMFdigit` is the AND of `DTMFdata1 << 1` (twice),
`DTMFdata3 << 3` and `DTMFdata4 << 4`, in which `DTMFdata2` does not occur, and it is 0;
the `switch` therefore takes its default branch and decodes 99 (invalid), which is what
the handler stores when `digit` addresses an object; the result is the same for any two
samples of the levels. -/
theorem irq_handler_digit_always_zero (cfg : Config) (s : State) (env : IrqEnv) :
    (dtmfrx_irq_handler cfg s env).1.DTMFdigit =
      shl32 (gpio_get_value env.pins cfg.gpioDTMFdata1) 1 &&&
      shl32 (gpio_get_value env.pins cfg.gpioDTMFdata1) 1 &&&
      shl32 (gpio_get_value env.pins cfg.gpioDTMFdata3) 3 &&&
      shl32 (gpio_get_value env.pins cfg.gpioDTMFdata4) 4 ∧
    (dtmfrx_irq_handler cfg s env).1.DTMFdigit = 0 ∧
    decode_switch (dtmfrx_irq_handler cfg s env).1.DTMFdigit = 99 ∧
    (s.digit ≠ 0 → (dtmfrx_irq_handler cfg s env).1.mem s.digit = 99) ∧
    (∀ env2 : IrqEnv, (dtmfrx_irq_handler cfg s env2).1.DTMFdigit =
      (dtmfrx_irq_handler cfg s env).1.DTMFdigit) := by
  have hexp : ∀ e : IrqEnv, (dtmfrx_irq_handler cfg s e).1.DTMFdigit =
      shl32 (gpio_get_value e.pins cfg.gpioDTMFdata1) 1 &&&
      shl32 (gpio_get_value e.pins cfg.gpioDTMFdata1) 1 &&&
      shl32 (gpio_get_value e.pins cfg.gpioDTMFdata3) 3 &&&
      shl32 (gpio_get_value e.pins cfg.gpioDTMFdata4) 4 := by
    intro e
    rw [(handler_state_fields cfg s e).2.2.2.2.1, irq_update_DTMFdigit]
  have hzero : ∀ e : IrqEnv, (dtmfrx_irq_handler cfg s e).1.DTMFdigit = 0 := by
    intro e
    rw [hexp e]
    exact and_compose_zero _ _ _
  refine ⟨hexp env, hzero env, ?_, ?_, ?_⟩
  · rw [hzero env]; rfl
  · intro hd
    rw [(handler_stores_decoded cfg s env hd).2, hzero env]
    rfl
  · intro env2
    rw [hzero env2, hzero env]

/-- Witness of C12: with `digit` addressing an object and all four lines high, the
handler stores 99 there. -/
theorem irq_handler_digit_always_zero_witness :
    s0_digit.digit ≠ 0 ∧
    (dtmfrx_irq_handler Config.default s0_digit env1111).1.DTMFdigit = 0 ∧
    (dtmfrx_irq_handler Config.default s0_digit env1111).1.mem s0_digit.digit = 99 :=
  ⟨by decide, (irq_handler_digit_always_zero Config.default s0_digit env1111).2.1,
   (irq_handler_digit_always_zero Config.default s0_digit env1111).2.2.2.1 (by decide)⟩

end DtmfRx
